import Mathlib

/-!
Verification of the parts-extraction frontend against its specification.

The React frontend is embedded shallowly: each event handler becomes a pure
function on an explicit application state, HTTP requests become an explicit
outcome parameter (success with the parsed response, or failure with an
optional server-provided detail string), and browser side effects (triggering
a CSV download) become explicit effect values returned next to the new state.
JavaScript strings are modelled as Lean strings; `localeCompare` is modelled
as the code-unit lexicographic comparison on strings (the relevant part
numbers and file names are plain ASCII).  `Array.prototype.sort` is stable
per the ECMAScript specification, so it is modelled by a stable sort
(`List.insertionSort`) under the comparator's reflexive order.

The Python backend pipeline is not part of the sources; the few backend
facts needed (the dimension matcher and the per-file batch isolation) are
modelled from the specification and marked as such in their doc comments.
-/

/-- A selected file as the UI identifies it: `name`, `size` and
`lastModified` are exactly the components of the dedup signature
`${file.name}-${file.size}-${file.lastModified}`. -/
structure FileMeta where
  name : String
  size : Nat
  lastModified : Nat
deriving DecidableEq

/-- The dedup signature string built in `handleFileChange`. -/
def signature (f : FileMeta) : String :=
  f.name ++ "-" ++ toString f.size ++ "-" ++ toString f.lastModified

/-- One entry of the backend response of `/api/extract_part_numbers_from_table`:
`{ file_name, count, part_numbers: [...] }` (the unused `count` is omitted). -/
structure FileEntry where
  file_name : String
  part_numbers : List String
deriving DecidableEq

/-- A row of the parts-list table: `{ part_number, file_name }`. -/
structure ResultRow where
  file_name : String
  part_number : String
deriving DecidableEq

/-- The flattening both frontends apply to the backend response:
`response.data.flatMap(entry => entry.part_numbers.map(p => ({file_name, part_number})))`. -/
def flattenRows (data : List FileEntry) : List ResultRow :=
  data.flatMap fun e => e.part_numbers.map fun p =>
    { file_name := e.file_name, part_number := p }

/-- Code-unit "less than" on character lists: the order underlying the model
of `String.prototype.localeCompare` for the ASCII part numbers and file names
handled here. -/
def strLtB : List Char → List Char → Bool
  | _, [] => false
  | [], _ :: _ => true
  | a :: as, b :: bs =>
      if a < b then true else if b < a then false else strLtB as bs

/-- Truth of `a.localeCompare(b) < 0` in the code-unit model. -/
def strLt (a b : String) : Bool :=
  strLtB a.data b.data

theorem strLtB_irrefl (x : List Char) : strLtB x x = false := by
  induction x with
  | nil => rfl
  | cons a as ih => simp [strLtB, lt_irrefl, ih]

theorem strLtB_asymm {x y : List Char} (h : strLtB x y = true) :
    strLtB y x = false := by
  induction x generalizing y with
  | nil =>
      cases y with
      | nil => simp [strLtB] at h
      | cons b bs => rfl
  | cons a as ih =>
      cases y with
      | nil => simp [strLtB] at h
      | cons b bs =>
          rcases lt_trichotomy a b with h1 | h1 | h1
          · simp [strLtB, h1, lt_asymm h1]
          · subst h1
            simp only [strLtB, lt_irrefl, if_false] at h ⊢
            exact ih h
          · simp [strLtB, h1, lt_asymm h1] at h

theorem strLtB_trans {x y z : List Char} (hxy : strLtB x y = true)
    (hyz : strLtB y z = true) : strLtB x z = true := by
  induction x generalizing y z with
  | nil =>
      cases z with
      | nil =>
          cases y with
          | nil => simp [strLtB] at hxy
          | cons b bs => simp [strLtB] at hyz
      | cons c cs => rfl
  | cons a as ih =>
      cases y with
      | nil => simp [strLtB] at hxy
      | cons b bs =>
          cases z with
          | nil => simp [strLtB] at hyz
          | cons c cs =>
              rcases lt_trichotomy a b with h1 | h1 | h1
              · rcases lt_trichotomy b c with h2 | h2 | h2
                · simp [strLtB, h1.trans h2]
                · subst h2; simp [strLtB, h1]
                · simp [strLtB, h2, lt_asymm h2] at hyz
              · subst h1
                simp only [strLtB, lt_irrefl, if_false] at hxy
                rcases lt_trichotomy a c with h2 | h2 | h2
                · simp [strLtB, h2]
                · subst h2
                  simp only [strLtB, lt_irrefl, if_false] at hyz ⊢
                  exact ih hxy hyz
                · simp [strLtB, h2, lt_asymm h2] at hyz
              · simp [strLtB, h1, lt_asymm h1] at hxy

theorem strLtB_eq_of_not_lt {x y : List Char} (h1 : strLtB x y = false)
    (h2 : strLtB y x = false) : x = y := by
  induction x generalizing y with
  | nil =>
      cases y with
      | nil => rfl
      | cons b bs => simp [strLtB] at h1
  | cons a as ih =>
      cases y with
      | nil => simp [strLtB] at h2
      | cons b bs =>
          rcases lt_trichotomy a b with h | h | h
          · simp [strLtB, h] at h1
          · subst h
            simp only [strLtB, lt_irrefl, if_false] at h1 h2
            rw [ih h1 h2]
          · simp [strLtB, h] at h2

/-- The order underlying the comparator of `handleSearch` in the first app of
`part_000` (`rows.sort(...)`): a row `a` may precede `b` when the comparator
is non-positive, i.e. primary key `part_number`, secondary key `file_name`,
both by the code-unit model of `localeCompare`. -/
def RowLe (a b : ResultRow) : Prop :=
  strLt a.part_number b.part_number = true ∨
    (a.part_number = b.part_number ∧ strLt b.file_name a.file_name = false)

instance : DecidableRel RowLe := fun a b =>
  inferInstanceAs (Decidable (strLt a.part_number b.part_number = true ∨
    (a.part_number = b.part_number ∧ strLt b.file_name a.file_name = false)))

theorem strLt_eq_of_not_lt {a b : String} (h1 : strLt a b = false)
    (h2 : strLt b a = false) : a = b := by
  have h := strLtB_eq_of_not_lt (x := a.data) (y := b.data) h1 h2
  cases a; cases b; exact congrArg String.mk h

theorem strLt_trans {a b c : String} (h1 : strLt a b = true)
    (h2 : strLt b c = true) : strLt a c = true :=
  strLtB_trans (x := a.data) (y := b.data) (z := c.data) h1 h2

theorem strLt_asymm {a b : String} (h : strLt a b = true) :
    strLt b a = false :=
  strLtB_asymm (x := a.data) (y := b.data) h

instance : IsTotal ResultRow RowLe where
  total a b := by
    cases hab : strLt a.part_number b.part_number with
    | true => exact Or.inl (Or.inl hab)
    | false =>
        cases hba : strLt b.part_number a.part_number with
        | true => exact Or.inr (Or.inl hba)
        | false =>
            have hpn : a.part_number = b.part_number := strLt_eq_of_not_lt hab hba
            cases hf : strLt b.file_name a.file_name with
            | false => exact Or.inl (Or.inr ⟨hpn, hf⟩)
            | true => exact Or.inr (Or.inr ⟨hpn.symm, strLt_asymm hf⟩)

instance : IsTrans ResultRow RowLe where
  trans a b c hab hbc := by
    rcases hab with h1 | ⟨e1, f1⟩ <;> rcases hbc with h2 | ⟨e2, f2⟩
    · exact Or.inl (strLt_trans h1 h2)
    · exact Or.inl (e2 ▸ h1)
    · exact Or.inl (e1.symm ▸ h2)
    · refine Or.inr ⟨e1.trans e2, ?_⟩
      cases hca : strLt c.file_name a.file_name with
      | false => rfl
      | true =>
          cases hbc2 : strLt b.file_name c.file_name with
          | true => exact absurd (strLt_trans hbc2 hca) (by simp [f1])
          | false =>
              have hbc3 : b.file_name = c.file_name := strLt_eq_of_not_lt hbc2 f2
              rw [hbc3] at f1
              rw [f1] at hca
              cases hca

/-- Embedding of `rows.sort((a, b) => ...)` of `handleSearch` in `part_000` (first app):
a stable sort under the `(part_number, file_name)` comparator. -/
def sortRows (rows : List ResultRow) : List ResultRow :=
  List.insertionSort RowLe rows

/-- Parts-list rows as produced by `handleSearch` in `part_000` (first app):
flatten the response, then sort for display stability. -/
def handleSearchRows (data : List FileEntry) : List ResultRow :=
  sortRows (flattenRows data)

/-- Parts-list rows as produced by `executeSearch` in `part_001`
(lines 135-141): the response is flattened and stored without sorting. -/
def executeSearchRows (data : List FileEntry) : List ResultRow :=
  flattenRows data

/-- C1 counterexample: for the backend response
`[{file_name: "f.pdf", part_numbers: ["B", "A"]}]` the rows produced by
`executeSearch` in `part_001` are `[(B, f.pdf), (A, f.pdf)]`, whose single
adjacent pair strictly decreases on the primary key, so the claimed ordering
invariant fails for this search operation. -/
theorem c1_counterexample :
    ¬ List.Chain' RowLe
      (executeSearchRows [{ file_name := "f.pdf", part_numbers := ["B", "A"] }]) := by
  intro h
  have h2 : RowLe { file_name := "f.pdf", part_number := "B" }
      { file_name := "f.pdf", part_number := "A" } := by
    have := List.chain'_cons.mp h
    exact this.1
  revert h2
  decide

/-- C1 (amended): for every backend response, the parts-list rows produced by
`handleSearch` in `part_000` (which sorts the flattened rows) satisfy the
ordering invariant: every pair of adjacent records is non-decreasing in
`(part_number, file_name)` lexicographically. -/
theorem c1_handleSearch_rows_sorted (data : List FileEntry) :
    List.Chain' RowLe (handleSearchRows data) :=
  List.chain'_iff_pairwise.mpr (List.sorted_insertionSort RowLe (flattenRows data))

/-- C2 counterexample: for the backend response
`[{file_name: "f.pdf", part_numbers: ["A", "A"]}]` the rows produced by
`executeSearch` contain the record `(A, f.pdf)` twice, so the claimed
deduplication invariant fails — the frontend performs no deduplication. -/
theorem c2_counterexample :
    ¬ (executeSearchRows [{ file_name := "f.pdf", part_numbers := ["A", "A"] }]).Nodup := by
  decide

/-- C2 (amended): the parts-list rows are in one-to-one correspondence with
the part-number occurrences of the backend response (flattened, and for
`handleSearch` additionally sorted); hence they contain no duplicate
`(part_number, file_name)` record exactly when the flattened response itself
lists each pair at most once. -/
theorem c2_rows_nodup_of_input_nodup (data : List FileEntry)
    (h : (flattenRows data).Nodup) :
    (executeSearchRows data).Nodup ∧ (handleSearchRows data).Nodup :=
  ⟨h, (List.Perm.nodup_iff (List.perm_insertionSort RowLe (flattenRows data))).mpr h⟩

theorem c2_rows_nodup_witness :
    (executeSearchRows [{ file_name := "f.pdf", part_numbers := ["A", "B"] }]).Nodup ∧
    (handleSearchRows [{ file_name := "f.pdf", part_numbers := ["A", "B"] }]).Nodup :=
  c2_rows_nodup_of_input_nodup
    [{ file_name := "f.pdf", part_numbers := ["A", "B"] }] (by decide)

/-- The state held by the `App` component of `part_001`: the selected files,
the three criterion text fields, the displayed results, the error banner, the
loading flag and the `hasSearched` flag. -/
structure AppState where
  files : List FileMeta
  lValue : String
  wValue : String
  tValue : String
  results : List ResultRow
  error : String
  isLoading : Bool
  hasSearched : Bool
deriving DecidableEq

/-- Outcome of an HTTP request made through axios: success with the parsed
response body, or failure carrying `err.response?.data?.detail` (absent when
the failure has no server-provided detail). -/
inductive HttpOutcome (α : Type) where
  | success (data : α)
  | failure (detail : Option String)
deriving DecidableEq

/-- Embedding of `isSearchDisabled` of `part_001` (lines 65-67): disabled exactly when no
file is selected; the dimension fields are not consulted. -/
def isSearchDisabled (files : List FileMeta) : Bool :=
  files.isEmpty

/-- Embedding of `isLinesCsvDisabled` of `part_001` (lines 69-71). -/
def isLinesCsvDisabled (files : List FileMeta) : Bool :=
  files.isEmpty

/-- Embedding of `isSearchDisabled` of the merged app in `part_000` (lines 338-340):
`files.length === 0 || !lValue || !wValue`; an empty string is falsy. -/
def isSearchDisabledLW (files : List FileMeta) (lValue wValue : String) : Bool :=
  files.isEmpty || lValue.isEmpty || wValue.isEmpty

/-- JavaScript `detail || fallback` on an optional string: the fallback is
used when the detail is absent or the empty string (falsy). -/
def jsOrElse (detail : Option String) (fallback : String) : String :=
  match detail with
  | some d => if d.isEmpty then fallback else d
  | none => fallback

/-- Category message of the non-CSV search failure branch. -/
def searchErrorFallback : String := "検索中にエラーが発生しました。"

/-- Category message of the CSV download failure branches. -/
def csvErrorFallback : String := "CSVダウンロードに失敗しました。"

/-- Category message of the PDF-lines CSV download failure branch. -/
def linesCsvErrorFallback : String := "PDF行CSVダウンロードに失敗しました。"

/-- Embedding of `executeSearch` of `part_001` with `returnCsv = false`: guarded by
`isSearchDisabled`; on success the flattened response replaces `results`; on
failure only the error banner is set.  The transient `setIsLoading(true)` /
`finally setIsLoading(false)` pair of the non-silent path is modelled by its
net effect on the final state. -/
def executeSearchResults (st : AppState) (silent : Bool)
    (outcome : HttpOutcome (List FileEntry)) : AppState :=
  if isSearchDisabled st.files then st
  else
    match outcome with
    | .success data =>
        { st with error := "", results := executeSearchRows data,
                  isLoading := if silent then st.isLoading else false }
    | .failure detail =>
        { st with error := jsOrElse detail searchErrorFallback,
                  isLoading := if silent then st.isLoading else false }

/-- A CSV download triggered in the browser: the endpoint that served it, the
MIME type of the created blob, and the `download` attribute's file name. -/
structure DownloadEffect where
  endpoint : String
  mime : String
  filename : String
deriving DecidableEq

/-- Embedding of `executeSearch` of `part_001` with `returnCsv = true`: posts to
`/api/search` and on success downloads a `text/csv` blob named
`search_results.csv`; on failure only the error banner is set and nothing is
downloaded.  `results` is never touched on this path. -/
def executeSearchCsv (st : AppState) (outcome : HttpOutcome Unit) :
    AppState × Option DownloadEffect :=
  if isSearchDisabled st.files then (st, none)
  else
    match outcome with
    | .success _ =>
        ({ st with error := "" },
          some { endpoint := "/api/search", mime := "text/csv",
                 filename := "search_results.csv" })
    | .failure detail =>
        ({ st with error := jsOrElse detail csvErrorFallback }, none)

/-- Embedding of `handleDownloadPartsListCsv` of `part_001` (lines 166-193): posts to
`/api/extract_parts_list_csv` and on success downloads a `text/csv` blob
named `parts_list.csv`. -/
def handleDownloadPartsListCsv (st : AppState) (outcome : HttpOutcome Unit) :
    AppState × Option DownloadEffect :=
  if isSearchDisabled st.files then (st, none)
  else
    match outcome with
    | .success _ =>
        ({ st with error := "" },
          some { endpoint := "/api/extract_parts_list_csv", mime := "text/csv",
                 filename := "parts_list.csv" })
    | .failure detail =>
        ({ st with error := jsOrElse detail csvErrorFallback }, none)

/-- Embedding of `handleDownloadLinesCsv` of `part_001` (lines 195-222): posts to
`/api/extract_lines_csv` and on success downloads a `text/csv` blob named
`pdf_lines.csv`. -/
def handleDownloadLinesCsv (st : AppState) (outcome : HttpOutcome Unit) :
    AppState × Option DownloadEffect :=
  if isLinesCsvDisabled st.files then (st, none)
  else
    match outcome with
    | .success _ =>
        ({ st with error := "" },
          some { endpoint := "/api/extract_lines_csv", mime := "text/csv",
                 filename := "pdf_lines.csv" })
    | .failure detail =>
        ({ st with error := jsOrElse detail linesCsvErrorFallback }, none)

/-- The `files` entries every form-data builder starts with:
`files.forEach(file => formData.append("files", file))`, keeping only the
identity of each appended file. -/
def filesFormEntries (files : List FileMeta) : List (String × String) :=
  files.map fun f => ("files", f.name)

/-- JavaScript `String(returnCsv)`. -/
def jsBoolString (b : Bool) : String :=
  if b then "true" else "false"

/-- Embedding of `toFormData` of `part_001` / `App.jsx` (lines 20-30): always appends
`l_value`, `w_value`, `t_value` (the T field collapsing to `""` when absent,
via `tValue ?? ""`) and `return_csv`. -/
def toFormData (files : List FileMeta) (lValue wValue : String)
    (tValue : Option String) (returnCsv : Bool) : List (String × String) :=
  filesFormEntries files ++
    [("l_value", lValue), ("w_value", wValue), ("t_value", tValue.getD ""),
     ("return_csv", jsBoolString returnCsv)]

/-- The merge variant of `toFormData` in `part_000` (lines 304-322, "theirs"):
the `t_value` field is appended only when the T value is present and
non-empty; otherwise the request carries no `t_value` field at all. -/
def toFormDataConditionalT (files : List FileMeta) (lValue wValue : String)
    (tValue : Option String) (returnCsv : Bool) : List (String × String) :=
  filesFormEntries files ++ [("l_value", lValue), ("w_value", wValue)] ++
    (match tValue with
     | some t => if t.isEmpty then [] else [("t_value", t)]
     | none => []) ++
    [("return_csv", jsBoolString returnCsv)]

/-- Embedding of `toPartsTableFormData` of `part_001` (lines 35-44): all three criterion
fields are appended, absent values collapsing to `""`. -/
def toPartsTableFormData (files : List FileMeta)
    (lValue wValue tValue : Option String) : List (String × String) :=
  filesFormEntries files ++
    [("l_value", lValue.getD ""), ("w_value", wValue.getD ""),
     ("t_value", tValue.getD "")]

/-- Modelled from the spec: the backend Dimension Matcher of §4.5 is not
under `src/`.  The optional L, W and T criteria; an absent axis means
"unconstrained on that axis".  Numeric values are modelled as rationals. -/
structure DimensionCriteria where
  l : Option ℚ
  w : Option ℚ
  t : Option ℚ
deriving DecidableEq

/-- Modelled from the spec: the numeric values discoverable on a line's
context for each axis (§4.5: "parses candidate numeric substrings near a
part-number mention ... for L, W, and T axes"). -/
structure LineContext where
  lVals : List ℚ
  wVals : List ℚ
  tVals : List ℚ
deriving DecidableEq

/-- Modelled from the spec (§4.5): a criterion axis present in the criteria
must find a numeric value on the line within the absolute tolerance `eps`;
an absent axis is not checked. -/
def axisMatches (found : List ℚ) (criterion : Option ℚ) (eps : ℚ) : Bool :=
  match criterion with
  | none => true
  | some c => found.any fun v => decide (|v - c| ≤ eps)

/-- Modelled from the spec (§4.5): `matches(line_context, criteria)` — the
conjunction of the three per-axis checks. -/
def lineMatches (line : LineContext) (criteria : DimensionCriteria) (eps : ℚ) : Bool :=
  axisMatches line.lVals criteria.l eps &&
    axisMatches line.wVals criteria.w eps &&
      axisMatches line.tVals criteria.t eps

/-- A sample selected file, shared by the concrete witnesses below. -/
def fileA : FileMeta := { name := "a.pdf", size := 10, lastModified := 0 }

/-- A second sample file with a different signature. -/
def fileB : FileMeta := { name := "b.pdf", size := 20, lastModified := 5 }

/-- A sample application state with one selected file and one displayed row. -/
def sampleState : AppState :=
  { files := [fileA], lValue := "20", wValue := "4", tValue := "2",
    results := [{ file_name := "old.pdf", part_number := "OLD-1" }],
    error := "", isLoading := false, hasSearched := false }

/-- C3 counterexample: in the merged app of `part_000` (lines 338-340) a
state with one selected file but empty L and W values has the search
disabled, contradicting the claim that for every state with at least one
selected file the search is enabled even when L, W and T are all empty. -/
theorem c3_counterexample : isSearchDisabledLW [fileA] "" "" = true := by
  rfl

/-- C3 (amended): in `part_001` the search is enabled whenever at least one
file is selected, regardless of the L, W and T values; in the merged app of
`part_000` it additionally requires non-empty L and W values (T is never
consulted); and with no axes set every line passes the spec-modelled
dimension filter. -/
theorem c3_search_enabled_amended (files : List FileMeta) (l w : String)
    (h : files ≠ []) :
    isSearchDisabled files = false ∧
    (isSearchDisabledLW files l w = false ↔ l ≠ "" ∧ w ≠ "") ∧
    (∀ (line : LineContext) (eps : ℚ),
        lineMatches line { l := none, w := none, t := none } eps = true) := by
  have hfe : files.isEmpty = false := by simp [List.isEmpty_iff, h]
  refine ⟨hfe, ?_, fun line eps => rfl⟩
  constructor
  · intro hd
    simp only [isSearchDisabledLW, hfe, Bool.false_or, Bool.or_eq_false_iff] at hd
    refine ⟨fun hl => ?_, fun hw => ?_⟩
    · rw [hl, (String.isEmpty_iff "").mpr rfl] at hd
      exact absurd hd.1 (by decide)
    · rw [hw, (String.isEmpty_iff "").mpr rfl] at hd
      exact absurd hd.2 (by decide)
  · intro ⟨hl, hw⟩
    have hle : l.isEmpty = false := by
      cases hle : l.isEmpty with
      | false => rfl
      | true => exact absurd ((String.isEmpty_iff l).mp hle) hl
    have hwe : w.isEmpty = false := by
      cases hwe : w.isEmpty with
      | false => rfl
      | true => exact absurd ((String.isEmpty_iff w).mp hwe) hw
    simp [isSearchDisabledLW, hfe, hle, hwe]

theorem c3_search_enabled_witness :
    isSearchDisabled [fileA] = false ∧
    lineMatches { lVals := [], wVals := [], tVals := [] }
      { l := none, w := none, t := none } 0 = true :=
  ⟨(c3_search_enabled_amended [fileA] "" "" (by decide)).1,
   (c3_search_enabled_amended [fileA] "" "" (by decide)).2.2
     { lVals := [], wVals := [], tVals := [] } 0⟩

/-- C4: an absent or empty T value is treated as unconstrained: `toFormData`
still sends `l_value` and `w_value` with `t_value` collapsed to `""`, the
conditional merge variant omits the `t_value` field entirely, and in the
spec-modelled matcher a line with no discoverable T value still passes the
T check when no T criterion was supplied (the match reduces to the L and W
checks alone). -/
theorem c4_t_optional (files : List FileMeta) (l w : String) (returnCsv : Bool)
    (line : LineContext) (crit : DimensionCriteria) (eps : ℚ)
    (ht : crit.t = none) :
    ("l_value", l) ∈ toFormData files l w none returnCsv ∧
    ("w_value", w) ∈ toFormData files l w none returnCsv ∧
    ("t_value", "") ∈ toFormData files l w none returnCsv ∧
    toFormData files l w (some "") returnCsv = toFormData files l w none returnCsv ∧
    (∀ p ∈ toFormDataConditionalT files l w none returnCsv, p.1 ≠ "t_value") ∧
    toFormDataConditionalT files l w (some "") returnCsv
      = toFormDataConditionalT files l w none returnCsv ∧
    lineMatches { line with tVals := [] } crit eps =
      (axisMatches line.lVals crit.l eps && axisMatches line.wVals crit.w eps) := by
  refine ⟨?_, ?_, ?_, rfl, ?_, ?_, ?_⟩
  · simp [toFormData]
  · simp [toFormData]
  · simp [toFormData]
  · intro p hp
    simp only [toFormDataConditionalT, filesFormEntries, List.append_nil,
      List.mem_append, List.mem_map, List.mem_cons, List.mem_singleton,
      List.not_mem_nil, or_false] at hp
    rcases hp with (⟨f, _, rfl⟩ | rfl | rfl) | rfl <;> simp
  · rfl
  · simp [lineMatches, axisMatches, ht]

theorem c4_t_optional_witness :
    ("t_value", "") ∈ toFormData [fileA] "20" "4" none false ∧
    lineMatches { lVals := [20], wVals := [4], tVals := [] }
      { l := some 20, w := some 4, t := none } 1 =
      (axisMatches [20] (some 20) 1 && axisMatches [4] (some 4) 1) :=
  ⟨(c4_t_optional [fileA] "20" "4" false { lVals := [20], wVals := [4], tVals := [99] }
      { l := some 20, w := some 4, t := none } 1 rfl).2.2.1,
   (c4_t_optional [fileA] "20" "4" false { lVals := [20], wVals := [4], tVals := [99] }
      { l := some 20, w := some 4, t := none } 1 rfl).2.2.2.2.2.2⟩

/-- C5: each CSV handler delivers a `text/csv` blob whose download file name
is fixed by the requested schema — `search_results.csv` for the CSV-mode
`/api/search` request, `parts_list.csv` for the parts-list CSV request, and
`pdf_lines.csv` for the PDF-lines CSV request — and a failed request
downloads nothing. -/
theorem c5_csv_download_filenames (st : AppState) (h : st.files ≠ []) :
    (executeSearchCsv st (.success ())).2 =
      some { endpoint := "/api/search", mime := "text/csv",
             filename := "search_results.csv" } ∧
    (handleDownloadPartsListCsv st (.success ())).2 =
      some { endpoint := "/api/extract_parts_list_csv", mime := "text/csv",
             filename := "parts_list.csv" } ∧
    (handleDownloadLinesCsv st (.success ())).2 =
      some { endpoint := "/api/extract_lines_csv", mime := "text/csv",
             filename := "pdf_lines.csv" } ∧
    (∀ detail, (executeSearchCsv st (.failure detail)).2 = none ∧
      (handleDownloadPartsListCsv st (.failure detail)).2 = none ∧
      (handleDownloadLinesCsv st (.failure detail)).2 = none) := by
  have hfe : isSearchDisabled st.files = false := by
    simp [isSearchDisabled, List.isEmpty_iff, h]
  have hfe2 : isLinesCsvDisabled st.files = false := by
    simp [isLinesCsvDisabled, List.isEmpty_iff, h]
  refine ⟨?_, ?_, ?_, fun detail => ⟨?_, ?_, ?_⟩⟩ <;>
    simp [executeSearchCsv, handleDownloadPartsListCsv, handleDownloadLinesCsv,
      hfe, hfe2]

theorem c5_csv_download_filenames_witness :
    (executeSearchCsv sampleState (.success ())).2 =
      some { endpoint := "/api/search", mime := "text/csv",
             filename := "search_results.csv" } ∧
    (handleDownloadLinesCsv sampleState (.failure none)).2 = none :=
  ⟨(c5_csv_download_filenames sampleState (by decide)).1,
   ((c5_csv_download_filenames sampleState (by decide)).2.2.2 none).2.2⟩

/-- C6 counterexample: a failed search whose server response carries the
present but empty detail string `""` surfaces the fixed category message, not
the server-provided detail — `detail || fallback` treats an empty detail as
absent, so the claim "the server-provided detail when present" fails. -/
theorem c6_counterexample :
    (executeSearchResults sampleState false (.failure (some ""))).error ≠ "" := by
  decide

/-- C6 (amended): for every failed request the caller receives exactly one
error message — the server-provided detail when present and non-empty,
otherwise the fixed category message — and the displayed results are never
touched (no partial stream); for every successful request the caller
receives the full flattened result set. -/
theorem c6_error_single_message (st : AppState) (silent : Bool)
    (h : isSearchDisabled st.files = false) :
    (∀ d : String, d ≠ "" →
      (executeSearchResults st silent (.failure (some d))).error = d) ∧
    (executeSearchResults st silent (.failure none)).error = searchErrorFallback ∧
    (executeSearchResults st silent (.failure (some ""))).error = searchErrorFallback ∧
    (∀ detail, (executeSearchResults st silent (.failure detail)).results = st.results) ∧
    (∀ data, (executeSearchResults st silent (.success data)).results
      = executeSearchRows data) := by
  refine ⟨?_, ?_, ?_, ?_, ?_⟩
  · intro d hd
    have hde : d.isEmpty = false := by
      cases hde : d.isEmpty with
      | false => rfl
      | true => exact absurd ((String.isEmpty_iff d).mp hde) hd
    simp [executeSearchResults, h, jsOrElse, hde]
  · simp [executeSearchResults, h, jsOrElse]
  · simp [executeSearchResults, h, jsOrElse, (String.isEmpty_iff "").mpr rfl]
  · intro detail
    simp [executeSearchResults, h]
  · intro data
    simp [executeSearchResults, h]

theorem c6_error_single_message_witness :
    (executeSearchResults sampleState false (.failure (some "boom"))).error = "boom" ∧
    (executeSearchResults sampleState false (.failure (some "boom"))).results
      = sampleState.results :=
  ⟨(c6_error_single_message sampleState false (by decide)).1 "boom" (by decide),
   (c6_error_single_message sampleState false (by decide)).2.2.2.1 (some "boom")⟩

/-- C9: `executeSearch` is atomic with respect to the displayed results: a
failed request leaves `results` exactly as before (in both the JSON and the
CSV branch, and whether or not the call was silent), and `results` is
replaced — by the full flattened response — only on a successful JSON
request. -/
theorem c9_executeSearch_atomic (st : AppState) (silent : Bool) :
    (∀ detail, (executeSearchResults st silent (.failure detail)).results
      = st.results) ∧
    (∀ outcome : HttpOutcome Unit, ((executeSearchCsv st outcome).1).results
      = st.results) ∧
    (isSearchDisabled st.files = false →
      ∀ data, (executeSearchResults st silent (.success data)).results
        = executeSearchRows data) := by
  refine ⟨?_, ?_, ?_⟩
  · intro detail
    by_cases h : isSearchDisabled st.files = true
    · simp [executeSearchResults, h]
    · simp [executeSearchResults, Bool.not_eq_true _ |>.mp h]
  · intro outcome
    by_cases h : isSearchDisabled st.files = true
    · simp [executeSearchCsv, h]
    · cases outcome <;> simp [executeSearchCsv, Bool.not_eq_true _ |>.mp h]
  · intro h data
    simp [executeSearchResults, h]

theorem c9_executeSearch_atomic_witness :
    (executeSearchResults sampleState false (.failure none)).results
      = sampleState.results ∧
    (executeSearchResults sampleState false
        (.success [{ file_name := "f.pdf", part_numbers := ["X-1"] }])).results
      = executeSearchRows [{ file_name := "f.pdf", part_numbers := ["X-1"] }] :=
  ⟨(c9_executeSearch_atomic sampleState false).1 none,
   (c9_executeSearch_atomic sampleState false).2.2 (by decide)
     [{ file_name := "f.pdf", part_numbers := ["X-1"] }]⟩

/-- The files-state merge of `handleFileChange` (`part_001` lines 79-91 and
both `part_000` variants): the previous list is kept as is and the newly
selected files are appended, each only when its dedup signature does not
occur among the previously selected files. -/
def mergeFiles (prev selected : List FileMeta) : List FileMeta :=
  prev ++ selected.filter fun f => !((prev.map signature).contains (signature f))

/-- Effect of `handleFileChange` on the `files` state: an empty selection
returns early, otherwise the merge is stored. -/
def handleFileChangeFiles (prev selected : List FileMeta) : List FileMeta :=
  if selected = [] then prev else mergeFiles prev selected

/-- C8: `handleFileChange` preserves the previously selected files unchanged
and in order (they are an unmodified prefix), appends only selected files
whose `(name, size, lastModified)` signature does not occur among the
previous files, and consequently never changes the number of files carrying
a signature already present — re-selecting an identical file never
duplicates it. -/
theorem c8_fileChange_dedup (prev selected : List FileMeta) :
    (handleFileChangeFiles prev selected).take prev.length = prev ∧
    (∀ f ∈ (handleFileChangeFiles prev selected).drop prev.length,
        f ∈ selected ∧ signature f ∉ prev.map signature) ∧
    (∀ s ∈ prev.map signature,
        (handleFileChangeFiles prev selected).countP (fun f => signature f == s)
          = prev.countP (fun f => signature f == s)) := by
  unfold handleFileChangeFiles
  by_cases hsel : selected = []
  · simp [hsel]
  · simp only [if_neg hsel, mergeFiles]
    refine ⟨List.take_left _ _, ?_, ?_⟩
    · rw [List.drop_left]
      intro f hf
      rw [List.mem_filter] at hf
      refine ⟨hf.1, fun hmem => ?_⟩
      have hc : (prev.map signature).contains (signature f) = true :=
        List.elem_iff.mpr hmem
      rw [hc] at hf
      exact absurd hf.2 (by decide)
    · intro s hs
      rw [List.countP_append]
      have hz : (selected.filter fun f =>
          !((prev.map signature).contains (signature f))).countP
            (fun f => signature f == s) = 0 := by
        rw [List.countP_eq_zero]
        intro f hf
        rw [List.mem_filter] at hf
        intro hbeq
        have hfs : signature f = s := by
          simpa using hbeq
        rw [← hfs] at hs
        have hc : (prev.map signature).contains (signature f) = true :=
          List.elem_iff.mpr hs
        rw [hc] at hf
        exact absurd hf.2 (by decide)
      rw [hz, Nat.add_zero]

theorem c8_fileChange_dedup_witness :
    (handleFileChangeFiles [fileA] [fileA, fileB]).countP
        (fun f => signature f == signature fileA)
      = [fileA].countP (fun f => signature f == signature fileA) :=
  (c8_fileChange_dedup [fileA] [fileA, fileB]).2.2 (signature fileA) (by decide)

/-- A user-visible event of the `part_001` app, as handled by
`handleFileChange`, `handleRemoveFile`, `handleClear`, `handleSearch` and the
three criterion `onChange` handlers.  A `manualSearch` carries the outcome of
the HTTP request it triggers. -/
inductive UIEvent where
  | fileChange (selected : List FileMeta)
  | removeFile (idx : Nat)
  | clearAll
  | manualSearch (outcome : HttpOutcome (List FileEntry))
  | setLValue (v : String)
  | setWValue (v : String)
  | setTValue (v : String)
deriving DecidableEq

/-- Embedding of `handleRemoveFile`: `prev.filter((_, index) => index !== indexToRemove)`. -/
def removeAtIndex (l : List FileMeta) (idx : Nat) : List FileMeta :=
  (l.enum.filter fun p => p.1 != idx).map Prod.snd

/-- One step of the `part_001` app's event handling.  `fileChange` merges the
selection and resets `hasSearched`; `removeFile` filters by index and resets
`hasSearched`; `clearAll` empties everything and resets `hasSearched`;
`manualSearch` is `handleSearch`: guarded by `isSearchDisabled`, it runs
`executeSearch()` and then sets `hasSearched`; the three `set*` events only
store the new field text. -/
def step (st : AppState) (e : UIEvent) : AppState :=
  match e with
  | .fileChange selected =>
      if selected = [] then st
      else { st with files := mergeFiles st.files selected, hasSearched := false }
  | .removeFile idx =>
      { st with files := removeAtIndex st.files idx, hasSearched := false }
  | .clearAll =>
      { st with files := [], results := [], error := "", hasSearched := false }
  | .manualSearch outcome =>
      if isSearchDisabled st.files then st
      else { executeSearchResults st false outcome with hasSearched := true }
  | .setLValue v => { st with lValue := v }
  | .setWValue v => { st with wValue := v }
  | .setTValue v => { st with tValue := v }

/-- Whether the event is the explicit user search (`handleSearch`), the only
handler that ever sets `hasSearched` back to `true`. -/
def isManualSearch : UIEvent → Bool
  | .manualSearch _ => true
  | _ => false

/-- Whether the event changes the selected file set: a non-empty file
selection, an individual removal, or clearing all. -/
def changesFileSet : UIEvent → Bool
  | .fileChange selected => !selected.isEmpty
  | .removeFile _ => true
  | .clearAll => true
  | _ => false

/-- Folding a sequence of events over the state. -/
def run (st : AppState) (es : List UIEvent) : AppState :=
  es.foldl step st

/-- The `useEffect` of `part_001` (lines 239-244): when `hasSearched` holds,
a silent background search is issued and its resulting state returned;
otherwise no request is sent (`none`). -/
def silentRefresh (st : AppState) (outcome : HttpOutcome (List FileEntry)) :
    Option AppState :=
  if st.hasSearched then some (executeSearchResults st true outcome) else none

theorem step_hasSearched_false {st : AppState} {e : UIEvent}
    (hm : isManualSearch e = false) (h : st.hasSearched = false) :
    (step st e).hasSearched = false := by
  cases e with
  | fileChange selected =>
      by_cases hs : selected = [] <;> simp [step, hs, h]
  | removeFile idx => rfl
  | clearAll => rfl
  | manualSearch outcome => simp [isManualSearch] at hm
  | setLValue v => exact h
  | setWValue v => exact h
  | setTValue v => exact h

theorem run_take_hasSearched_false (es : List UIEvent) :
    ∀ (st : AppState) (n : Nat), st.hasSearched = false →
      (∀ e ∈ es, isManualSearch e = false) →
      (run st (es.take n)).hasSearched = false := by
  induction es with
  | nil =>
      intro st n h _
      cases n <;> exact h
  | cons e es ih =>
      intro st n h hall
      cases n with
      | zero => exact h
      | succ n =>
          simp only [List.take_succ_cons, run, List.foldl_cons]
          exact ih (step st e) n
            (step_hasSearched_false (hall e (List.mem_cons_self e es)) h)
            (fun e' he' => hall e' (List.mem_cons_of_mem e he'))

/-- C10: after any event that changes the selected file set (a non-empty
file selection, a removal, or clearing all) the `hasSearched` flag is reset,
and as long as no manual search follows, the silent background re-search of
the `useEffect` never issues a request at any point of the subsequent event
sequence; in general the silent re-search fires only in states where a
manual search has set `hasSearched`. -/
theorem c10_silent_search_gating (st : AppState) (e : UIEvent)
    (es : List UIEvent) (he : changesFileSet e = true)
    (hes : ∀ e' ∈ es, isManualSearch e' = false) :
    (step st e).hasSearched = false ∧
    (∀ (n : Nat) (outcome : HttpOutcome (List FileEntry)),
        silentRefresh (run (step st e) (es.take n)) outcome = none) ∧
    (∀ (st' : AppState) (outcome : HttpOutcome (List FileEntry)),
        st'.hasSearched = false → silentRefresh st' outcome = none) := by
  have hstep : (step st e).hasSearched = false := by
    cases e with
    | fileChange selected =>
        have hne : ¬ selected = [] := by
          intro hsel
          rw [hsel] at he
          simp [changesFileSet] at he
        simp [step, hne]
    | removeFile idx => rfl
    | clearAll => rfl
    | manualSearch outcome => simp [changesFileSet] at he
    | setLValue v => simp [changesFileSet] at he
    | setWValue v => simp [changesFileSet] at he
    | setTValue v => simp [changesFileSet] at he
  refine ⟨hstep, ?_, ?_⟩
  · intro n outcome
    have hh := run_take_hasSearched_false es (step st e) n hstep hes
    simp [silentRefresh, hh]
  · intro st' outcome h
    simp [silentRefresh, h]

/-- A state in which a manual search has completed. -/
def sampleSearchedState : AppState := { sampleState with hasSearched := true }

theorem c10_silent_search_gating_witness :
    silentRefresh (run (step sampleSearchedState (.removeFile 0))
      ([UIEvent.setLValue "30"].take 1)) (.success []) = none :=
  (c10_silent_search_gating sampleSearchedState (.removeFile 0)
    [UIEvent.setLValue "30"] (by decide) (by decide)).2.1 1 (.success [])

/-- Modelled from the spec: the backend extraction pipeline is not under
`src/`.  A Candidate per §3: a normalized part-number token with its
provenance. -/
structure Candidate where
  part_number : String
  file_name : String
  matched_line : String
deriving DecidableEq

/-- Modelled from the spec (§4.6, §7): the outcome of processing one file of
a batch — either a list of extracted Candidates, or a per-file failure
(corrupt file, zero pages). -/
inductive FileOutcome where
  | ok (candidates : List Candidate)
  | corrupt
deriving DecidableEq

/-- Modelled from the spec (§4.6): the aggregate response — the merged
candidates plus the per-file error annotations attached at the response
level. -/
structure BatchResponse where
  candidates : List Candidate
  errors : List String
deriving DecidableEq

/-- Candidates a file outcome contributes: a failed file contributes none. -/
def fileCandidates : FileOutcome → List Candidate
  | .ok cs => cs
  | .corrupt => []

/-- Error annotation a file outcome contributes: the failing file's name. -/
def fileError (name : String) : FileOutcome → Option String
  | .ok _ => none
  | .corrupt => some name

/-- Modelled from the spec (§2, §4.6): each file of the batch is processed
independently; the response merges the per-file candidate streams and
collects the per-file error annotations. -/
def processBatch (process : String → FileOutcome) (files : List String) :
    BatchResponse :=
  { candidates := files.flatMap fun f => fileCandidates (process f),
    errors := files.filterMap fun f => fileError f (process f) }

/-- C7: per-file isolation of the spec-modelled batch pipeline — a file that
fails contributes zero candidates and exactly one error annotation at the
response level, and the contributions of all other files of the batch are
exactly what they would be without the failing file; the failure never
aborts the rest of the batch. -/
theorem c7_per_file_isolation (process : String → FileOutcome)
    (pre post : List String) (f : String) (hf : process f = .corrupt) :
    (processBatch process (pre ++ f :: post)).candidates
      = (processBatch process pre).candidates
        ++ (processBatch process post).candidates ∧
    (processBatch process (pre ++ f :: post)).errors
      = (processBatch process pre).errors
        ++ f :: (processBatch process post).errors := by
  constructor
  · simp [processBatch, hf, fileCandidates]
  · simp [processBatch, hf, fileError]

/-- A sample per-file processor: `bad.pdf` is corrupt, every other file
yields one candidate. -/
def sampleProcess (name : String) : FileOutcome :=
  if name = "bad.pdf" then .corrupt
  else .ok [{ part_number := "A-1", file_name := name,
              matched_line := "PART NO: A-1" }]

theorem c7_per_file_isolation_witness :
    (processBatch sampleProcess (["good1.pdf"] ++ "bad.pdf" :: ["good2.pdf"])).candidates
      = (processBatch sampleProcess ["good1.pdf"]).candidates
        ++ (processBatch sampleProcess ["good2.pdf"]).candidates ∧
    (processBatch sampleProcess (["good1.pdf"] ++ "bad.pdf" :: ["good2.pdf"])).errors
      = (processBatch sampleProcess ["good1.pdf"]).errors
        ++ "bad.pdf" :: (processBatch sampleProcess ["good2.pdf"]).errors :=
  c7_per_file_isolation sampleProcess ["good1.pdf"] ["good2.pdf"] "bad.pdf"
    (by decide)
